import Mathlib

/-!
Verification development for the Mamba mixer layer
(`src/megatron/core/ssm/mamba_mixer.py`).

The Python class `Mamba` is shallowly embedded below:

* the shard arithmetic of `Mamba.__init__` (lines 76-101) as `mambaShardInit`;
* the set of instance attributes assigned by `__init__` as `mambaAttrs`,
  together with a small attribute-lookup semantics (`getattrChk`) used to
  model the `AttributeError` behaviour of methods that read attributes that
  `__init__` never defines;
* the inference-cache manager `Mamba._get_states_from_cache`
  (lines 428-452) as `getStatesFromCache`;
* `Mamba.allocate_inference_cache` (lines 415-426) as `allocateInferenceCache`;
* the control flow of `Mamba.step` (lines 353-413) as `stepModel` and of
  `Mamba.forward` (lines 182-282) as `forwardModel`;
* the in-repo reference scan `Mamba.selective_scan_ref` (lines 284-351) as
  `selective_scan_ref` over real numbers;
* the numerically sensitive parameter transforms (`softplus`, the
  inverse-softplus initialization of `dt_bias`, `A = -exp(A_log)`) as real
  functions;
* the depthwise causal convolution stage (conv1d with left padding
  `d_conv - 1` followed by SiLU, lines 114-125 and 225-238) per channel as
  `convStage`;
* the chunked scan kernel `mamba_chunk_scan_fused` is imported by the source
  from `src/ops/triton/flashmamba.py`, which is not among the provided
  sources; it is modelled from the spec (see its doc comment).

Tensors are embedded as `Fin`-indexed functions (real-valued data) or as
nested lists over `ℚ` (cache buffers, where only shapes and zero-ness
matter and decidable evaluation is wanted).
-/

namespace MambaSpec

/-! ### Python attribute names used by the embedding -/

def sXProj : String := "x_proj"
def sDtProj : String := "dt_proj"
def sDtRank : String := "dt_rank"
def sConv1d : String := "conv1d"
def sInProj : String := "in_proj"
def sActAttr : String := "act"
def sALog : String := "A_log"
def sOutProj : String := "out_proj"
def sX : String := "x"

/-- Python runtime errors relevant to the embedded methods. -/
inductive PyErr where
  | assertionError : PyErr
  | attributeError : String → PyErr
  | nameError : String → PyErr
deriving DecidableEq, Repr

/-- Attributes assigned on `self` by `Mamba.__init__` (source lines 73-180),
in assignment order; `norm` is only assigned when `rmsnorm` is true
(line 165-168). No other attribute is ever assigned by the constructor: in
particular `x_proj`, `dt_proj` and `dt_rank` are absent. -/
def mambaAttrs (rmsnorm : Bool) : List String :=
  ["config", "d_model", "d_state", "d_conv", "conv_init", "expand",
   "d_inner", "headdim", "ngroups", "nheads", "D_has_hdim", "rmsnorm",
   "norm_before_gate", "chunk_size", "use_fast_path", "layer_idx",
   "tensor_model_parallel_size", "d_inner_local", "ngroups_local",
   "nheads_local", "in_proj", "conv1d", "activation", "act", "dt_bias",
   "A_log", "D"] ++ (if rmsnorm then ["norm"] else []) ++ ["out_proj"]

/-- Reading `self.a`: succeeds when `a` is among the object's attributes,
otherwise raises `AttributeError` (Python semantics). -/
def getattrChk (attrs : List String) (a : String) : Except PyErr Unit :=
  if a ∈ attrs then Except.ok () else Except.error (PyErr.attributeError a)

/-- First name in the given read sequence that is not an attribute of the
object, if any (the site of the first `AttributeError`). -/
def firstMissing (attrs : List String) : List String → Option String
  | [] => none
  | a :: rest => if a ∈ attrs then firstMissing attrs rest else some a

/-! ### Shard arithmetic of the constructor (lines 76-101) -/

/-- Result of the shard computation in `Mamba.__init__`. -/
structure MambaShards where
  d_inner : ℕ
  nheads : ℕ
  d_inner_local : ℕ
  ngroups_local : ℕ
  nheads_local : ℕ
deriving DecidableEq, Repr

/-- Lines 76-101 of `Mamba.__init__`: `d_inner = expand * d_model`
(line 81), `assert d_inner % headdim == 0` (line 84),
`nheads = d_inner // headdim` (line 85), the three tensor-parallel
divisibility asserts (lines 94-96), `assert not bias` (line 97), and the
three local shard widths (lines 99-101).  A failed `assert` is a failed
construction, modelled as `none`. -/
def mambaShardInit (d_model expand headdim ngroups tp : ℕ) (bias : Bool) :
    Option MambaShards :=
  let d_inner := expand * d_model
  if d_inner % headdim = 0 then
    let nheads := d_inner / headdim
    if d_inner % tp = 0 then
      if ngroups % tp = 0 then
        if nheads % tp = 0 then
          if bias then none
          else some ⟨d_inner, nheads, d_inner / tp, ngroups / tp, nheads / tp⟩
        else none
      else none
    else none
  else none

/-- Channel count of the grouped convolution input,
`conv_dim = d_inner_local + 2 * ngroups_local * d_state` (line 114). -/
def conv_dim (d_inner_local ngroups_local d_state : ℕ) : ℕ :=
  d_inner_local + 2 * ngroups_local * d_state

/-! ### Inference cache (lines 415-452) -/

/-- A cached (convolution-state, ssm-state) pair; buffers are nested lists
of rationals, shape (batch, channels, width). -/
abbrev ConvSsm := List (List (List ℚ)) × List (List (List ℚ))

/-- A zero buffer of shape `(b, d, w)` (`torch.zeros`). -/
def zeros3 (b d w : ℕ) : List (List (List ℚ)) :=
  List.replicate b (List.replicate d (List.replicate w 0))

/-- In-place `tensor.zero_()`: same shape, all entries zero. -/
def zeroLike (t : List (List (List ℚ))) : List (List (List ℚ)) :=
  t.map (fun p => p.map (fun r => r.map (fun _ => 0)))

/-- `Mamba._get_states_from_cache` (lines 428-452).
`assert self.layer_idx is not None` (line 429); on a cache miss the
convolution buffer of shape `(batch, d_inner_local, d_conv)` is allocated
reading `self.conv1d.weight` (lines 431-437) and the ssm buffer of shape
`(batch, d_inner_local, d_state)` is allocated reading
`self.dt_proj.weight` (lines 438-444), then the pair is stored in the
session dictionary (line 445); on a hit the stored pair is returned,
zeroed in place when `init_states` is set (lines 447-451). -/
def getStatesFromCache (attrs : List String) (layer_idx : Option ℕ)
    (kv : List (ℕ × ConvSsm)) (batch d_inner_local d_conv d_state : ℕ)
    (init_states : Bool) : Except PyErr (ConvSsm × List (ℕ × ConvSsm)) :=
  match layer_idx with
  | none => Except.error PyErr.assertionError
  | some li =>
    match List.lookup li kv with
    | none =>
      match getattrChk attrs sConv1d with
      | Except.error e => Except.error e
      | Except.ok _ =>
        let conv_state := zeros3 batch d_inner_local d_conv
        match getattrChk attrs sDtProj with
        | Except.error e => Except.error e
        | Except.ok _ =>
          let ssm_state := zeros3 batch d_inner_local d_state
          Except.ok ((conv_state, ssm_state), kv ++ [(li, (conv_state, ssm_state))])
    | some cs =>
      if init_states then
        let z := (zeroLike cs.1, zeroLike cs.2)
        Except.ok (z, kv.map (fun p => if p.1 = li then (li, z) else p))
      else Except.ok (cs, kv)

/-- Attribute reads of `Mamba.allocate_inference_cache` in execution order:
`self.out_proj.weight.device` (line 416), `self.conv1d.weight.dtype`
(line 417), `self.dt_proj.weight.dtype` (line 421). -/
def allocReads : List String := ["out_proj", "conv1d", "dt_proj"]

/-- `Mamba.allocate_inference_cache` (lines 415-426): allocates zero conv
and ssm buffers after the attribute reads listed in `allocReads`. -/
def allocateInferenceCache (attrs : List String)
    (batch d_inner_local d_conv d_state : ℕ) : Except PyErr ConvSsm :=
  match firstMissing attrs allocReads with
  | some a => Except.error (PyErr.attributeError a)
  | none => Except.ok (zeros3 batch d_inner_local d_conv, zeros3 batch d_inner_local d_state)

/-! ### Control flow of `step` and `forward` -/

/-- Attribute reads of `Mamba.step` after the length assert, in execution
order: `self.in_proj.weight` (line 361), `self.conv1d` (lines 368-372 or
375-381), `self.act` (line 373), `self.x_proj.weight` (line 384),
`self.dt_rank` (line 387), `self.dt_proj.weight` (line 390),
`self.A_log` (line 393), `self.D` (line 403), `self.out_proj.weight`
(line 411). -/
def stepReads : List String :=
  ["in_proj", "conv1d", "act", "x_proj", "dt_rank", "dt_proj", "A_log", "D",
   "out_proj"]

/-- Control flow of `Mamba.step` (lines 353-413):
`assert hidden_states.shape[0] == 1` (line 355), then the attribute reads
of `stepReads`; with the attributes actually assigned by `__init__` the
read of `self.x_proj` raises `AttributeError` before the recurrence is
applied, so the embedded result carries no output value. -/
def stepModel (attrs : List String) (L : ℕ) : Except PyErr Unit :=
  if L = 1 then
    match firstMissing attrs stepReads with
    | some a => Except.error (PyErr.attributeError a)
    | none => Except.ok ()
  else Except.error PyErr.assertionError

/-- Locals of `Mamba.forward` assigned before line 223 executes:
the parameters (line 182), `batch`, `dim` (line 187), `conv_state`,
`ssm_state` (lines 190-193), `A` (line 200), `xz` (line 209), `z`, `xBC`,
`dt` (lines 211-217).  The name `x` is first assigned at line 241. -/
def forwardLocalsBefore223 : List String :=
  ["hidden_states", "inference_params", "batch", "dim", "conv_state",
   "ssm_state", "A", "xz", "z", "xBC", "dt"]

/-- Control flow of `Mamba.forward` (lines 182-282) at the granularity of
its error behaviour.  `inference` carries `(seqlen_offset, layer_idx, kv)`
of the optional inference session.  With a session:
`assert not self.config.sequence_parallel` (line 192), the cache fetch
(line 193), dispatch to `step` when `seqlen_offset > 0` (lines 194-197);
otherwise the prefill path reads `self.A_log` (line 200) and
`self.in_proj` (line 209) and then, since `conv_state` is not `None`,
line 223 reads the local variable `x`, which is not among
`forwardLocalsBefore223`, raising `NameError`.  Without a session the
training path runs to completion (its numerics are treated separately by
the scan model). -/
def forwardModel (attrs : List String) (seq_par : Bool)
    (inference : Option (ℕ × Option ℕ × List (ℕ × ConvSsm)))
    (L batch d_inner_local d_conv d_state : ℕ) : Except PyErr Unit :=
  match inference with
  | none => Except.ok ()
  | some (off, li, kv) =>
    if seq_par then Except.error PyErr.assertionError
    else
      match getStatesFromCache attrs li kv batch d_inner_local d_conv d_state false with
      | Except.error e => Except.error e
      | Except.ok _ =>
        if 0 < off then stepModel attrs L
        else
          match getattrChk attrs sALog with
          | Except.error e => Except.error e
          | Except.ok _ =>
            match getattrChk attrs sInProj with
            | Except.error e => Except.error e
            | Except.ok _ =>
              if sX ∈ forwardLocalsBefore223 then Except.ok ()
              else Except.error (PyErr.nameError sX)

/-! ### Numerically sensitive transforms (real-valued) -/

/-- `F.softplus`: `softplus x = log (1 + exp x)` (used at lines 319 and 398,
and by the chunked kernel via `dt_softplus=True` at line 260). -/
noncomputable def softplus (x : ℝ) : ℝ := Real.log (1 + Real.exp x)

/-- `torch.expm1 x = exp x - 1` (used at line 143). -/
noncomputable def expm1r (x : ℝ) : ℝ := Real.exp x - 1

/-- The stored gating bias, line 143:
`inv_dt = dt + torch.log(-torch.expm1(-dt))`. -/
noncomputable def inv_softplus (dt : ℝ) : ℝ := dt + Real.log (-(expm1r (-dt)))

/-- The decay parameter used by the scan, lines 200 and 393:
`A = -torch.exp(self.A_log.float())`. -/
noncomputable def A_of_log (a_log : ℝ) : ℝ := -Real.exp a_log

/-- The discretized state-transition factor `exp (dt_eff * A)`. -/
noncomputable def A_disc (dt_eff A : ℝ) : ℝ := Real.exp (dt_eff * A)

/-- `nn.SiLU`: `silu x = x * sigmoid x = x / (1 + exp (-x))`
(lines 133-134, 349, 404). -/
noncomputable def silu (x : ℝ) : ℝ := x / (1 + Real.exp (-x))

/-! ### Causal convolution stage (lines 114-125 and 225-238), per channel -/

/-- Left zero-padding of `k - 1` positions applied by
`nn.Conv1d(..., padding=d_conv-1)` together with the truncation
`[..., :seqlen]` (line 227): padded position `t` holds `0` for
`t < k - 1` and input position `t - (k - 1)` otherwise. -/
noncomputable def convPad (k : ℕ) (x : ℕ → ℝ) : ℕ → ℝ :=
  fun t => if t < k - 1 then 0 else x (t - (k - 1))

/-- One output channel of the depthwise (grouped, `groups = conv_dim`)
convolution of kernel width `k` with bias, at output position `t`
(cross-correlation, PyTorch convention). -/
noncomputable def causalConvOut (k : ℕ) (w : ℕ → ℝ) (b : ℝ) (x : ℕ → ℝ)
    (t : ℕ) : ℝ :=
  b + ∑ j ∈ Finset.range k, w j * convPad k x (t + j)

/-- The convolution stage of `forward`, per channel: convolution then SiLU
(line 227; the fused `causal_conv1d_fn` path, lines 230-235, has the same
semantics per the source's `activation in ["silu", "swish"]` contract). -/
noncomputable def convStage (k : ℕ) (w : ℕ → ℝ) (b : ℝ) (x : ℕ → ℝ)
    (t : ℕ) : ℝ :=
  silu (causalConvOut k w b x t)

/-! ### Selective scan core, sequential and chunked -/

/-- Per-timestep input of the scan for one head: signal `u`, raw timestep
`dtr`, and the gates `B` and `C` over the state dimension. -/
structure ScanIn (ns : ℕ) where
  u : ℝ
  dtr : ℝ
  B : Fin ns → ℝ
  C : Fin ns → ℝ

/-- The pure sequential recurrence of the Selective Scan Core (spec 4.3),
per head, with state vector over the state dimension:
`dt_eff = softplus (dtr + dt_bias)`,
`state_t = exp (dt_eff * A) * state_(t-1) + dt_eff * B_t * u_t`,
`y_t = C_t . state_t + D * u_t`.  Returns the per-token outputs and the
final state. -/
noncomputable def seqScan {ns : ℕ} (A D dtb : ℝ) :
    (Fin ns → ℝ) → List (ScanIn ns) → List ℝ × (Fin ns → ℝ)
  | s, [] => ([], s)
  | s, inp :: rest =>
    let de := softplus (inp.dtr + dtb)
    let s' : Fin ns → ℝ := fun n => A_disc de A * s n + de * inp.B n * inp.u
    let r := seqScan A D dtb s' rest
    (((∑ n, inp.C n * s' n) + D * inp.u) :: r.1, r.2)

/-- Modelled from the spec: the chunked-parallel scan kernel
`mamba_chunk_scan_fused` is imported by the source from
`src/ops/triton/flashmamba.py`, which is not among the provided sources.
Per spec 4.3 it "processes the whole sequence in fixed-size chunks
(`chunk_size`), computing intra-chunk recurrence in parallel and carrying
inter-chunk state sequentially; mathematically equivalent to the pure
sequential recurrence above", and per line 261 it returns the final state.
Each chunk of `chunk_size` timesteps is processed by the recurrence from
the carried entry state; the final state of a chunk is carried into the
next chunk.  A `chunk_size` of `0` degenerates to a single chunk. -/
noncomputable def mamba_chunk_scan_fused {ns : ℕ} :
    (chunk_size : ℕ) → (A D dtb : ℝ) → (s : Fin ns → ℝ) →
    List (ScanIn ns) → List ℝ × (Fin ns → ℝ)
  | _, A, D, dtb, s, [] => ([], s)
  | 0, A, D, dtb, s, a :: l => seqScan A D dtb s (a :: l)
  | k + 1, A, D, dtb, s, a :: l =>
    let r1 := seqScan A D dtb s ((a :: l).take (k + 1))
    let r2 := mamba_chunk_scan_fused (k + 1) A D dtb r1.2 ((a :: l).drop (k + 1))
    (r1.1 ++ r2.1, r2.2)
termination_by k _ _ _ _ l => l.length
decreasing_by simp [List.length_drop]; omega

/-! ### The in-repo reference scan (lines 284-351) -/

/-- `Mamba.selective_scan_ref` (lines 284-351), with the tensor layout of
the second docstring block: `u`, `delta`, `z` of shape `(L, nb, nd)`,
`A` of shape `(nd, nn)`, `Bm`, `Cm` of shape `(L, nb, nn)`, `Dm` and
`delta_bias` of shape `(nd)`.  Lines 315-319 compute the effective
`delta` (bias add and optional softplus), bound here to `_delta2`; it is
dead code because every line of the loop body that would consume it — the
state update `x = deltaA[i] * x + deltaB_u[i]` and its expansions (lines
326-327 and 334-340) — is commented out in the source.  The loop
(lines 333-345) therefore leaves `x` at its initial `A.new_zeros` value
(line 324), reads `y = einsum('bdn,bn->bd', x, C[i])` (line 342) and
records `last_state = x` at the final iteration (lines 343-344).  Lines
347-349 add the skip term `u * D` and the `silu z` gate when present. -/
noncomputable def selective_scan_ref (L nb nd nn : ℕ)
    (u delta : Fin L → Fin nb → Fin nd → ℝ)
    (A : Fin nd → Fin nn → ℝ)
    (Bm Cm : Fin L → Fin nb → Fin nn → ℝ)
    (Dm : Option (Fin nd → ℝ))
    (z : Option (Fin L → Fin nb → Fin nd → ℝ))
    (delta_bias : Option (Fin nd → ℝ))
    (delta_softplus : Bool)
    (return_last_state : Bool) :
    (Fin L → Fin nb → Fin nd → ℝ) × Option (Fin nb → Fin nd → Fin nn → ℝ) :=
  let delta1 : Fin L → Fin nb → Fin nd → ℝ := fun i b d =>
    match delta_bias with
    | some db => delta i b d + db d
    | none => delta i b d
  let _delta2 : Fin L → Fin nb → Fin nd → ℝ := fun i b d =>
    if delta_softplus then softplus (delta1 i b d) else delta1 i b d
  let x : Fin nb → Fin nd → Fin nn → ℝ := fun _ _ _ => 0
  let ys : Fin L → Fin nb → Fin nd → ℝ := fun i b d => ∑ n, x b d n * Cm i b n
  let last_state : Option (Fin nb → Fin nd → Fin nn → ℝ) :=
    if 0 < L then some x else none
  let out1 : Fin L → Fin nb → Fin nd → ℝ :=
    match Dm with
    | some Dv => fun i b d => ys i b d + u i b d * Dv d
    | none => ys
  let out2 : Fin L → Fin nb → Fin nd → ℝ :=
    match z with
    | some zv => fun i b d => out1 i b d * silu (zv i b d)
    | none => out1
  (out2, if return_last_state then last_state else none)

/-- The state sequence of the recurrence that claim C1 (and spec 4.3)
ascribes to `selective_scan_ref` with `delta_softplus=True`: starting from
a zero state,
`state_(t+1) = exp (dt_eff_t * A) * state_t + dt_eff_t * B_t * u_t`,
with `dt_eff` the already-discretized effective timestep. -/
noncomputable def claimedScanState (L nb nd nn : ℕ)
    (dt_eff u : Fin L → Fin nb → Fin nd → ℝ)
    (A : Fin nd → Fin nn → ℝ)
    (Bm : Fin L → Fin nb → Fin nn → ℝ) :
    ℕ → Fin nb → Fin nd → Fin nn → ℝ
  | 0 => fun _ _ _ => 0
  | t + 1 => fun b d n =>
    if h : t < L then
      A_disc (dt_eff ⟨t, h⟩ b d) (A d n) * claimedScanState L nb nd nn dt_eff u A Bm t b d n
        + dt_eff ⟨t, h⟩ b d * Bm ⟨t, h⟩ b n * u ⟨t, h⟩ b d
    else claimedScanState L nb nd nn dt_eff u A Bm t b d n

/-- The input-output behaviour claim C1 ascribes to `selective_scan_ref`
with `delta_softplus=True`:
`dt_eff = softplus (delta + delta_bias)`, the state recurrence of
`claimedScanState`, `y_t = C_t . state_t + D * u_t`, gating by
`silu z` when `z` is given, and `last_state` equal to the state after the
final timestep. -/
noncomputable def selective_scan_claimed (L nb nd nn : ℕ)
    (u delta : Fin L → Fin nb → Fin nd → ℝ)
    (A : Fin nd → Fin nn → ℝ)
    (Bm Cm : Fin L → Fin nb → Fin nn → ℝ)
    (Dm : Option (Fin nd → ℝ))
    (z : Option (Fin L → Fin nb → Fin nd → ℝ))
    (delta_bias : Option (Fin nd → ℝ)) :
    (Fin L → Fin nb → Fin nd → ℝ) × (Fin nb → Fin nd → Fin nn → ℝ) :=
  let dt_eff : Fin L → Fin nb → Fin nd → ℝ := fun i b d =>
    softplus (delta i b d + (match delta_bias with | some db => db d | none => 0))
  let st := claimedScanState L nb nd nn dt_eff u A Bm
  let ys : Fin L → Fin nb → Fin nd → ℝ := fun i b d =>
    ∑ n, Cm i b n * st (i.val + 1) b d n
  let out1 : Fin L → Fin nb → Fin nd → ℝ :=
    match Dm with
    | some Dv => fun i b d => ys i b d + u i b d * Dv d
    | none => ys
  let out2 : Fin L → Fin nb → Fin nd → ℝ :=
    match z with
    | some zv => fun i b d => out1 i b d * silu (zv i b d)
    | none => out1
  (out2, st L)

/-! ### Scan lemmas -/

/-- Splitting a sequence anywhere and carrying the intermediate state
produces the same outputs and final state as a single sequential pass. -/
theorem seqScan_append {ns : ℕ} (A D dtb : ℝ) (l1 l2 : List (ScanIn ns)) :
    ∀ s : Fin ns → ℝ,
      seqScan A D dtb s (l1 ++ l2) =
        ((seqScan A D dtb s l1).1 ++
            (seqScan A D dtb (seqScan A D dtb s l1).2 l2).1,
          (seqScan A D dtb (seqScan A D dtb s l1).2 l2).2) := by
  induction l1 with
  | nil => intro s; simp [seqScan]
  | cons a t ih => intro s; simp [seqScan, ih]

/-- The chunked scan equals the sequential scan for every chunk size and
every initial state. -/
theorem chunked_eq_seq {ns : ℕ} :
    ∀ (k : ℕ) (A D dtb : ℝ) (s : Fin ns → ℝ) (l : List (ScanIn ns)),
      mamba_chunk_scan_fused k A D dtb s l = seqScan A D dtb s l
  | k, A, D, dtb, s, [] => by cases k <;> simp [mamba_chunk_scan_fused, seqScan]
  | 0, A, D, dtb, s, a :: l => by simp [mamba_chunk_scan_fused]
  | k + 1, A, D, dtb, s, a :: l => by
    have ih := chunked_eq_seq (k + 1) A D dtb
      (seqScan A D dtb s ((a :: l).take (k + 1))).2 ((a :: l).drop (k + 1))
    simp only [mamba_chunk_scan_fused]
    rw [ih]
    conv_rhs => rw [← List.take_append_drop (k + 1) (a :: l)]
    rw [seqScan_append]
termination_by k _ _ _ _ l => l.length
decreasing_by simp [List.length_drop]; omega

/-- Characterization of a successful shard computation. -/
theorem mambaShardInit_eq_some_iff (d_model expand headdim ngroups tp : ℕ)
    (bias : Bool) (s : MambaShards) :
    mambaShardInit d_model expand headdim ngroups tp bias = some s ↔
      ((expand * d_model) % headdim = 0 ∧ (expand * d_model) % tp = 0 ∧
        ngroups % tp = 0 ∧ ((expand * d_model) / headdim) % tp = 0 ∧
        bias = false ∧
        s = ⟨expand * d_model, (expand * d_model) / headdim,
          (expand * d_model) / tp, ngroups / tp,
          (expand * d_model) / headdim / tp⟩) := by
  unfold mambaShardInit
  split_ifs <;> simp_all [eq_comm]

/-! ### Claim theorems -/

/-- C2: for every input sequence, the chunked-parallel scan produces the
same per-token outputs and the same final state regardless of
`chunk_size` — in particular any two chunk sizes agree — and equals the
pure sequential recurrence of the Selective Scan Core, starting from the
zero state. -/
theorem chunked_scan_chunk_size_invariant {ns : ℕ} (k1 k2 : ℕ) (A D dtb : ℝ)
    (l : List (ScanIn ns)) :
    mamba_chunk_scan_fused k1 A D dtb (fun _ => 0) l
        = seqScan A D dtb (fun _ => 0) l ∧
    mamba_chunk_scan_fused k1 A D dtb (fun _ => 0) l
        = mamba_chunk_scan_fused k2 A D dtb (fun _ => 0) l := by
  refine ⟨chunked_eq_seq k1 A D dtb _ l, ?_⟩
  rw [chunked_eq_seq, chunked_eq_seq]

/-- C3: the constructor's shard computation fails unless the
tensor-parallel shard count divides the inner dimension, the head count
and the group count (and the head dimension divides the inner dimension);
on success each local shard width times the shard count equals the
corresponding unsharded width. -/
theorem mamba_shard_init_correct (d_model expand headdim ngroups tp : ℕ)
    (bias : Bool) :
    (∀ s : MambaShards,
      mambaShardInit d_model expand headdim ngroups tp bias = some s →
        (expand * d_model) % headdim = 0 ∧ (expand * d_model) % tp = 0 ∧
        ngroups % tp = 0 ∧ s.nheads % tp = 0 ∧
        s.d_inner = expand * d_model ∧ s.nheads * headdim = s.d_inner ∧
        s.d_inner_local * tp = s.d_inner ∧ s.ngroups_local * tp = ngroups ∧
        s.nheads_local * tp = s.nheads) ∧
    (¬((expand * d_model) % headdim = 0 ∧ (expand * d_model) % tp = 0 ∧
        ngroups % tp = 0 ∧ ((expand * d_model) / headdim) % tp = 0) →
      mambaShardInit d_model expand headdim ngroups tp bias = none) := by
  constructor
  · intro s hs
    rw [mambaShardInit_eq_some_iff] at hs
    obtain ⟨h1, h2, h3, h4, _, rfl⟩ := hs
    refine ⟨h1, h2, h3, h4, rfl, ?_, ?_, ?_, ?_⟩
    · exact Nat.div_mul_cancel (Nat.dvd_of_mod_eq_zero h1)
    · exact Nat.div_mul_cancel (Nat.dvd_of_mod_eq_zero h2)
    · exact Nat.div_mul_cancel (Nat.dvd_of_mod_eq_zero h3)
    · exact Nat.div_mul_cancel (Nat.dvd_of_mod_eq_zero h4)
  · intro h
    cases hm : mambaShardInit d_model expand headdim ngroups tp bias with
    | none => rfl
    | some s =>
      rw [mambaShardInit_eq_some_iff] at hm
      exact absurd ⟨hm.1, hm.2.1, hm.2.2.1, hm.2.2.2.1⟩ h

/-- C3 witness: the spec section 8 scenario (model-dim 16, expand 2,
head-dim 8, one group, one shard) constructs successfully and its local
widths recover the unsharded widths. -/
theorem mamba_shard_init_correct_witness :
    mambaShardInit 16 2 8 1 1 false = some ⟨32, 4, 32, 1, 4⟩ ∧
    (⟨32, 4, 32, 1, 4⟩ : MambaShards).d_inner_local * 1 = 32 ∧
    (⟨32, 4, 32, 1, 4⟩ : MambaShards).ngroups_local * 1 = 1 ∧
    (⟨32, 4, 32, 1, 4⟩ : MambaShards).nheads_local * 1 = 4 := by
  have h := (mamba_shard_init_correct 16 2 8 1 1 false).1 ⟨32, 4, 32, 1, 4⟩ (by rfl)
  exact ⟨by rfl, h.2.2.2.2.2.2.1, h.2.2.2.2.2.2.2.1, h.2.2.2.2.2.2.2.2⟩

/-- C4: the decay parameter `-exp A_log` is strictly negative for every
real `A_log`, and for every strictly positive `dt_eff` the transition
factor `exp (dt_eff * A)` lies in `(0, 1]`. -/
theorem A_of_log_neg_decay (a_log : ℝ) :
    A_of_log a_log < 0 ∧
    (∀ dt_eff : ℝ, 0 < dt_eff →
      0 < A_disc dt_eff (A_of_log a_log) ∧
        A_disc dt_eff (A_of_log a_log) ≤ 1) := by
  constructor
  · have := Real.exp_pos a_log
    unfold A_of_log
    linarith
  · intro de hde
    refine ⟨Real.exp_pos _, ?_⟩
    unfold A_disc A_of_log
    have hexp := Real.exp_pos a_log
    have hle : de * -Real.exp a_log ≤ 0 := by nlinarith
    calc Real.exp (de * -Real.exp a_log) ≤ Real.exp 0 := Real.exp_le_exp.mpr hle
    _ = 1 := Real.exp_zero

/-- C4 witness at `A_log = 0`, `dt_eff = 1`. -/
theorem A_of_log_neg_decay_witness :
    A_of_log 0 < 0 ∧ 0 < A_disc 1 (A_of_log 0) ∧ A_disc 1 (A_of_log 0) ≤ 1 :=
  ⟨(A_of_log_neg_decay 0).1, ((A_of_log_neg_decay 0).2 1 (by norm_num)).1,
    ((A_of_log_neg_decay 0).2 1 (by norm_num)).2⟩

/-- C5: for every `dt` in `(dt_init_floor, dt_max] = (1/10000, 1/10]`
(the source defaults), `softplus` applied to the stored value
`inv_softplus dt = dt + log (-expm1 (-dt))` reconstructs `dt` exactly. -/
theorem softplus_inv_softplus (dt : ℝ) (hlo : (1 : ℝ) / 10000 < dt)
    (hhi : dt ≤ 1 / 10) : softplus (inv_softplus dt) = dt := by
  have hdt : 0 < dt := lt_trans (by norm_num) hlo
  have he : Real.exp (-dt) < 1 := by
    calc Real.exp (-dt) < Real.exp 0 := Real.exp_lt_exp.mpr (by linarith)
    _ = 1 := Real.exp_zero
  have hpos : 0 < 1 - Real.exp (-dt) := by linarith
  unfold softplus inv_softplus expm1r
  have h1 : -(Real.exp (-dt) - 1) = 1 - Real.exp (-dt) := by ring
  rw [h1, Real.exp_add, Real.exp_log hpos]
  have h3 : Real.exp dt * Real.exp (-dt) = 1 := by
    rw [← Real.exp_add]; simp
  have h2 : 1 + Real.exp dt * (1 - Real.exp (-dt)) = Real.exp dt := by
    have : Real.exp dt * (1 - Real.exp (-dt)) = Real.exp dt - 1 := by
      rw [mul_sub, mul_one, h3]
    linarith
  rw [h2, Real.log_exp]

/-- C5 witness at `dt = 1/20`. -/
theorem softplus_inv_softplus_witness :
    softplus (inv_softplus (1 / 20)) = 1 / 20 :=
  softplus_inv_softplus (1 / 20) (by norm_num) (by norm_num)

/-- C6: the convolution-plus-SiLU stage is causal: two inputs agreeing at
all positions up to `t` give identical outputs at `t`, for every kernel
width, weights and bias. -/
theorem conv_stage_causal (k : ℕ) (w : ℕ → ℝ) (b : ℝ) (x x' : ℕ → ℝ)
    (t : ℕ) (h : ∀ s, s ≤ t → x s = x' s) :
    convStage k w b x t = convStage k w b x' t := by
  unfold convStage causalConvOut
  congr 2
  apply Finset.sum_congr rfl
  intro j hj
  simp only [Finset.mem_range] at hj
  unfold convPad
  by_cases hc : t + j < k - 1
  · simp [hc]
  · simp only [hc, if_false]
    congr 1
    apply h
    omega

/-- C6 witness: perturbing the input strictly after position 0 leaves the
output at position 0 unchanged. -/
theorem conv_stage_causal_witness :
    convStage 4 (fun _ => 1) 0 (fun _ => 0) 0
      = convStage 4 (fun _ => 1) 0 (fun s => if s = 0 then 0 else 5) 0 :=
  conv_stage_causal 4 (fun _ => 1) 0 (fun _ => 0)
    (fun s => if s = 0 then 0 else 5) 0
    (fun s hs => by simp [Nat.le_zero.mp hs])

/-- C7: with an inference cache present at prefill time, the
convolution-cache update of `forward` does not write the cache: line 223
reads the local `x`, which is not among the locals assigned before it, so
the pass fails with `NameError`; moreover the cache's convolution buffer
has `d_inner_local` channels while the convolution input has
`conv_dim = d_inner_local + 2 * ngroups_local * d_state` channels, which
differ for every configuration with positive group count and state
dimension. -/
theorem forward_conv_cache_update_fails :
    forwardModel (mambaAttrs true) false
        (some (0, some 0, [(0, (zeros3 2 32 4, zeros3 2 32 8))])) 6 2 32 4 8
      = Except.error (PyErr.nameError sX) ∧
    (∀ dl g N : ℕ, 0 < g → 0 < N → conv_dim dl g N ≠ dl) := by
  constructor
  · rfl
  · intro dl g N hg hN
    unfold conv_dim
    rw [mul_assoc]
    have hgN : 0 < 2 * (g * N) := by positivity
    exact (Nat.lt_add_of_pos_right hgN).ne'

/-- C7 witness at the spec section 8 scenario widths. -/
theorem forward_conv_cache_update_fails_witness :
    conv_dim 32 1 8 ≠ 32 :=
  forward_conv_cache_update_fails.2 32 1 8 (by norm_num) (by norm_num)

/-- C8: evaluating the cache manager: a first (cache-miss) request fails
with `AttributeError` on `dt_proj` instead of allocating; an unset layer
identity fails the assertion; a cache hit returns the stored buffers
unchanged, and zeroes them when the reinitialization flag is set. -/
theorem get_states_from_cache_behaviour :
    getStatesFromCache (mambaAttrs true) (some 0) [] 2 32 4 8 false
      = Except.error (PyErr.attributeError sDtProj) ∧
    getStatesFromCache (mambaAttrs true) none [] 2 32 4 8 false
      = Except.error PyErr.assertionError ∧
    getStatesFromCache (mambaAttrs true) (some 0) [(0, ([[[1]]], [[[2]]]))] 2 32 4 8 false
      = Except.ok (([[[1]]], [[[2]]]), [(0, ([[[1]]], [[[2]]]))]) ∧
    getStatesFromCache (mambaAttrs true) (some 0) [(0, ([[[1]]], [[[2]]]))] 2 32 4 8 true
      = Except.ok (([[[0]]], [[[0]]]), [(0, ([[[0]]], [[[0]]]))]) :=
  ⟨rfl, rfl, rfl, rfl⟩

/-- C9: `step` fails the length assertion for every sequence length other
than 1; `forward` with sequence-parallel partitioning active fails the
assertion as soon as an inference session is supplied, for every input;
and at length exactly 1 `step` does not complete the recurrence but fails
with `AttributeError` on `x_proj`. -/
theorem step_usage_errors :
    (∀ L : ℕ, L ≠ 1 →
      stepModel (mambaAttrs true) L = Except.error PyErr.assertionError) ∧
    (∀ (attrs : List String) (inf : ℕ × Option ℕ × List (ℕ × ConvSsm))
        (L batch dl dc ds : ℕ),
      forwardModel attrs true (some inf) L batch dl dc ds
        = Except.error PyErr.assertionError) ∧
    stepModel (mambaAttrs true) 1 = Except.error (PyErr.attributeError sXProj) := by
  refine ⟨?_, ?_, rfl⟩
  · intro L hL
    unfold stepModel
    rw [if_neg hL]
  · intro attrs inf L batch dl dc ds
    obtain ⟨off, li, kv⟩ := inf
    rfl

/-- C9 witness at length 2 and a concrete sequence-parallel call. -/
theorem step_usage_errors_witness :
    stepModel (mambaAttrs true) 2 = Except.error PyErr.assertionError ∧
    forwardModel (mambaAttrs true) true (some (0, some 0, [])) 6 2 32 4 8
      = Except.error PyErr.assertionError :=
  ⟨step_usage_errors.1 2 (by norm_num),
    step_usage_errors.2.1 (mambaAttrs true) (0, some 0, []) 6 2 32 4 8⟩

/-- C10: the attributes `x_proj`, `dt_proj` and `dt_rank` are never
assigned by the constructor (for either value of `rmsnorm`); consequently
the first forward call with an inference session (the cache-creating
prefill) fails with `AttributeError` on `dt_proj`, every subsequent
single-step decode fails with `AttributeError` on `x_proj`, and
`allocate_inference_cache` fails with `AttributeError` on `dt_proj`. -/
theorem missing_projection_attributes :
    (∀ r : Bool, sXProj ∉ mambaAttrs r ∧ sDtProj ∉ mambaAttrs r ∧
      sDtRank ∉ mambaAttrs r) ∧
    forwardModel (mambaAttrs true) false (some (0, some 0, [])) 6 2 32 4 8
      = Except.error (PyErr.attributeError sDtProj) ∧
    forwardModel (mambaAttrs true) false
        (some (1, some 0, [(0, (zeros3 2 32 4, zeros3 2 32 8))])) 1 2 32 4 8
      = Except.error (PyErr.attributeError sXProj) ∧
    allocateInferenceCache (mambaAttrs true) 2 32 4 8
      = Except.error (PyErr.attributeError sDtProj) := by
  refine ⟨?_, rfl, rfl, rfl⟩
  intro r
  cases r <;> exact ⟨by decide, by decide, by decide⟩

/-- C1: evaluating `selective_scan_ref` (with `delta_softplus = true` and
`return_last_state = true`) against the recurrence the claim ascribes to
it, at the scalar input `u = 1`, `delta = 0`, `A = -1`, `B = C = 1`, no
skip, no gate, no bias: the code returns output `0` and a zero
`last_state`, while the claimed recurrence yields output and final state
`softplus 0 = log 2`, which is nonzero — the state update of the
reference loop is commented out in the source, so its state never leaves
zero. -/
theorem selective_scan_ref_state_update_dead :
    (selective_scan_ref 1 1 1 1 (fun _ _ _ => 1) (fun _ _ _ => 0)
        (fun _ _ => -1) (fun _ _ _ => 1) (fun _ _ _ => 1)
        none none none true true).1 0 0 0 = 0 ∧
    (selective_scan_ref 1 1 1 1 (fun _ _ _ => 1) (fun _ _ _ => 0)
        (fun _ _ => -1) (fun _ _ _ => 1) (fun _ _ _ => 1)
        none none none true true).2 = some (fun _ _ _ => 0) ∧
    (selective_scan_claimed 1 1 1 1 (fun _ _ _ => 1) (fun _ _ _ => 0)
        (fun _ _ => -1) (fun _ _ _ => 1) (fun _ _ _ => 1)
        none none none).1 0 0 0 = Real.log 2 ∧
    (selective_scan_claimed 1 1 1 1 (fun _ _ _ => 1) (fun _ _ _ => 0)
        (fun _ _ => -1) (fun _ _ _ => 1) (fun _ _ _ => 1)
        none none none).2 0 0 0 = Real.log 2 ∧
    Real.log 2 ≠ 0 := by
  refine ⟨?_, ?_, ?_, ?_, ?_⟩
  · simp [selective_scan_ref, Fin.sum_univ_one]
  · simp [selective_scan_ref]
  · simp [selective_scan_claimed, claimedScanState, softplus, A_disc,
      Fin.sum_univ_one, Real.exp_zero]
    norm_num
  · simp [selective_scan_claimed, claimedScanState, softplus, A_disc,
      Fin.sum_univ_one, Real.exp_zero]
    norm_num
  · exact ne_of_gt (Real.log_pos (by norm_num))

end MambaSpec
